import Mathlib

/-!
Verification of the response-normalization logic of `src/streamlit_app.py`
(the `parse_studies_to_table` function), against the repository's
specification of the Study Record Normalizer.

The embedding models JSON-compatible Python values as the inductive type
`JValue`, and models the Python exceptions the code can raise
(`AttributeError` from calling `.get` on a non-dict, `TypeError` from
`", ".join` over a list with a non-string element) with the `Except PyErr`
monad.  Each piece of `parse_studies_to_table` is translated directly:

* `plainField kvs k`   is `study.get(k, "")`;
* `joinField kvs k d`  is `x = study.get(k, d); if isinstance(x, list): x = ", ".join(x)`;
* `sponsorField kvs`   is the sponsor snippet
  `sponsor = study.get("sponsor", ""); if isinstance(sponsor, dict): sponsor = sponsor.get("name", "") or sponsor.get("agency", "")`;
* `mkRow`              is the `row = { ... }` dict literal (13 keys, in order);
* `normalizeStudy`     is one iteration of the `for study in studies_data` loop;
* `rowsLoop`           is the loop with its `table_rows.append(row)` accumulation;
* `studiesFrom`        is `json_data["data"].get("studies", [])` plus the list check;
* `parse_studies_to_table` is the whole function, a `DataFrame` being modelled
  as its list of rows.
-/

/-- A JSON-compatible Python value: `None`, booleans, integers, strings,
lists and dictionaries (modelled as association lists; Python dictionaries
have unique keys, and lookup takes the first match). -/
inductive JValue where
  | null
  | bool (b : Bool)
  | int (n : Int)
  | str (s : String)
  | list (xs : List JValue)
  | dict (kvs : List (String × JValue))

/-- The two Python exceptions reachable inside `parse_studies_to_table`:
`AttributeError` (calling `.get` on a value that is not a dict) and
`TypeError` (`", ".join` over a list containing a non-string). -/
inductive PyErr where
  | attributeError
  | typeError
deriving DecidableEq

/-- Dictionary lookup: `kvs[k]` as an `Option`, first match wins. -/
def dictGet (kvs : List (String × JValue)) (k : String) : Option JValue :=
  match kvs with
  | [] => none
  | (k2, v) :: rest => if k2 = k then some v else dictGet rest k

/-- Holds exactly on Python dict values (`isinstance(x, dict)`). -/
def JValue.isDict : JValue → Bool
  | .dict _ => true
  | _ => false

/-- Python truthiness of a JSON-compatible value, as used by `or`. -/
def JValue.truthy : JValue → Bool
  | .null => false
  | .bool b => b
  | .int n => n != 0
  | .str s => s != ""
  | .list xs => !xs.isEmpty
  | .dict kvs => !kvs.isEmpty

/-- Extracts the underlying strings of a list of values, `none` if some
element is not a string (the case where `", ".join` raises `TypeError`). -/
def strList : List JValue → Option (List String)
  | [] => some []
  | .str s :: rest => (strList rest).map (fun ss => s :: ss)
  | _ => none

/-- Models `", ".join(xs)`: succeeds with the elements joined by `", "` when
all elements are strings, raises `TypeError` otherwise. -/
def pyJoin (xs : List JValue) : Except PyErr JValue :=
  match strList xs with
  | some ss => .ok (.str (String.intercalate ", " ss))
  | none => .error .typeError

/-- Models `study.get(k, "")` on a dict `study`: the stored value, or `""`
when the key is absent. -/
def plainField (kvs : List (String × JValue)) (k : String) : JValue :=
  (dictGet kvs k).getD (.str "")

/-- Models `x = study.get(k, d); if isinstance(x, list): x = ", ".join(x)` —
the extraction used for `conditions`, `interventions` (default `[]`) and
`phase` (default `""`). -/
def joinField (kvs : List (String × JValue)) (k : String) (d : JValue) :
    Except PyErr JValue :=
  match (dictGet kvs k).getD d with
  | .list xs => pyJoin xs
  | v => .ok v

/-- The sponsor extraction:
`sponsor = study.get("sponsor", "")`, then if it is a dict,
`sponsor = sponsor.get("name", "") or sponsor.get("agency", "")`
(Python `or`: the left operand when truthy, the right one otherwise). -/
def sponsorField (kvs : List (String × JValue)) : JValue :=
  match (dictGet kvs "sponsor").getD (.str "") with
  | .dict skvs =>
      let nameVal := (dictGet skvs "name").getD (.str "")
      if nameVal.truthy then nameVal else (dictGet skvs "agency").getD (.str "")
  | v => v

/-- One output record, modelled as the Python dict literal: an ordered
association list from column name to value. -/
def PyRow : Type := List (String × JValue)

/-- The `row = { ... }` dict literal of the loop body: thirteen keys, in
source order, with the already-extracted `conditions`, `interventions` and
`phase` values plugged in. -/
def mkRow (kvs : List (String × JValue))
    (conditions interventions phase : JValue) : PyRow :=
  [("nctId", plainField kvs "nctId"),
   ("Study Title", plainField kvs "title"),
   ("Study URL", plainField kvs "studyPageUrl"),
   ("Study Status", plainField kvs "status"),
   ("Brief Summary", plainField kvs "briefSummary"),
   ("Conditions", conditions),
   ("Interventions", interventions),
   ("Sponsor", sponsorField kvs),
   ("Phases", phase),
   ("Start Date", plainField kvs "startDate"),
   ("Primary Completion Date", plainField kvs "primaryCompletionDate"),
   ("Completion Date", plainField kvs "completionDate"),
   ("Last Update Posted", plainField kvs "lastUpdatePostDate")]

/-- One iteration of the `for study in studies_data` loop.  A study that is
not a dict raises `AttributeError` at the first `.get`; the three join
fields are evaluated in source order (`conditions`, `interventions`,
`phase`) so the first bad list raises `TypeError`; every other extraction is
total on a dict. -/
def normalizeStudy : JValue → Except PyErr PyRow
  | .dict kvs => do
      let conditions ← joinField kvs "conditions" (.list [])
      let interventions ← joinField kvs "interventions" (.list [])
      let phase ← joinField kvs "phase" (.str "")
      .ok (mkRow kvs conditions interventions phase)
  | _ => .error .attributeError

/-- The study loop: processes the studies in order, accumulating
`table_rows`; an exception in any iteration propagates out of the whole
function. -/
def rowsLoop : List JValue → Except PyErr (List PyRow)
  | [] => .ok []
  | s :: rest => do
      let row ← normalizeStudy s
      let rows ← rowsLoop rest
      .ok (row :: rows)

/-- Models `studies_data = json_data["data"].get("studies", [])` followed by
the `isinstance(studies_data, list)` check and the loop: the `.get` raises
`AttributeError` when the `"data"` value is not a dict; a non-list
`studies_data` gives the empty table. -/
def studiesFrom (dataVal : JValue) : Except PyErr (List PyRow) :=
  match dataVal with
  | .dict dkvs =>
      match (dictGet dkvs "studies").getD (.list []) with
      | .list l => rowsLoop l
      | _ => .ok []
  | _ => .error .attributeError

/-- The whole `parse_studies_to_table(json_data)`.
If `json_data` is not a dict or has no `"data"` key, return the empty table;
otherwise proceed with `json_data["data"]`.  The resulting `DataFrame` is
modelled as its list of rows. -/
def parse_studies_to_table (json_data : JValue) : Except PyErr (List PyRow) :=
  match json_data with
  | .dict kvs =>
      match dictGet kvs "data" with
      | none => .ok []
      | some dataVal => studiesFrom dataVal
  | _ => .ok []

/-- The thirteen targeted fields: source key paired with output column
name, in the order the loop body reads them into the dict literal. -/
def fieldPairs : List (String × String) :=
  [("nctId", "nctId"),
   ("title", "Study Title"),
   ("studyPageUrl", "Study URL"),
   ("status", "Study Status"),
   ("briefSummary", "Brief Summary"),
   ("conditions", "Conditions"),
   ("interventions", "Interventions"),
   ("sponsor", "Sponsor"),
   ("phase", "Phases"),
   ("startDate", "Start Date"),
   ("primaryCompletionDate", "Primary Completion Date"),
   ("completionDate", "Completion Date"),
   ("lastUpdatePostDate", "Last Update Posted")]

/-- The thirteen output column names, in output order. -/
def outputKeys : List String := fieldPairs.map Prod.snd

/-- The thirteen recognized source keys. -/
def sourceKeys : List String := fieldPairs.map Prod.fst

/-- The record produced from an empty study dictionary: all thirteen
columns hold the empty string. -/
def blankRow : PyRow :=
  [("nctId", .str ""), ("Study Title", .str ""), ("Study URL", .str ""),
   ("Study Status", .str ""), ("Brief Summary", .str ""), ("Conditions", .str ""),
   ("Interventions", .str ""), ("Sponsor", .str ""), ("Phases", .str ""),
   ("Start Date", .str ""), ("Primary Completion Date", .str ""),
   ("Completion Date", .str ""), ("Last Update Posted", .str "")]

/-- The record the normalizer produces from a study whose `title` and
`conditions` are both the list `["a", "b"]`. -/
def rowW4 : PyRow :=
  [("nctId", .str ""), ("Study Title", .list [.str "a", .str "b"]),
   ("Study URL", .str ""), ("Study Status", .str ""), ("Brief Summary", .str ""),
   ("Conditions", .str "a, b"), ("Interventions", .str ""), ("Sponsor", .str ""),
   ("Phases", .str ""), ("Start Date", .str ""), ("Primary Completion Date", .str ""),
   ("Completion Date", .str ""), ("Last Update Posted", .str "")]

/-- The record the normalizer produces from a study whose only field is a
sponsor that normalizes to `v`. -/
def sponsorRow (v : JValue) : PyRow :=
  [("nctId", .str ""), ("Study Title", .str ""), ("Study URL", .str ""),
   ("Study Status", .str ""), ("Brief Summary", .str ""), ("Conditions", .str ""),
   ("Interventions", .str ""), ("Sponsor", v), ("Phases", .str ""),
   ("Start Date", .str ""), ("Primary Completion Date", .str ""),
   ("Completion Date", .str ""), ("Last Update Posted", .str "")]

lemma joinField_absent (kvs : List (String × JValue)) (k : String) (d : JValue)
    (hd : d = .list [] ∨ d = .str "") (h : dictGet kvs k = none) :
    joinField kvs k d = .ok (.str "") := by
  rcases hd with rfl | rfl <;> (unfold joinField; rw [h]; rfl)

lemma normalizeStudy_ok_elim (kvs : List (String × JValue)) (r : PyRow)
    (h : normalizeStudy (.dict kvs) = .ok r) :
    ∃ c i p, joinField kvs "conditions" (.list []) = .ok c ∧
      joinField kvs "interventions" (.list []) = .ok i ∧
      joinField kvs "phase" (.str "") = .ok p ∧
      r = mkRow kvs c i p := by
  cases hc : joinField kvs "conditions" (.list []) with
  | error e => simp [normalizeStudy, hc, Bind.bind, Except.bind] at h
  | ok c =>
    cases hi : joinField kvs "interventions" (.list []) with
    | error e => simp [normalizeStudy, hc, hi, Bind.bind, Except.bind] at h
    | ok i =>
      cases hp : joinField kvs "phase" (.str "") with
      | error e => simp [normalizeStudy, hc, hi, hp, Bind.bind, Except.bind] at h
      | ok p =>
        refine ⟨c, i, p, rfl, rfl, rfl, ?_⟩
        simp [normalizeStudy, hc, hi, hp, Bind.bind, Except.bind] at h
        exact h.symm

lemma rowsLoop_ok (l : List JValue) (rows : List PyRow)
    (h : rowsLoop l = .ok rows) :
    rows.length = l.length ∧
      ∀ i (h1 : i < l.length) (h2 : i < rows.length),
        normalizeStudy (l.get ⟨i, h1⟩) = .ok (rows.get ⟨i, h2⟩) := by
  induction l generalizing rows with
  | nil =>
    simp [rowsLoop] at h
    subst h
    exact ⟨rfl, fun i h1 h2 => absurd h1 (Nat.not_lt_zero i)⟩
  | cons s rest ih =>
    cases hs : normalizeStudy s with
    | error e => simp [rowsLoop, hs, Bind.bind, Except.bind] at h
    | ok row =>
      cases hr : rowsLoop rest with
      | error e => simp [rowsLoop, hs, hr, Bind.bind, Except.bind] at h
      | ok rs =>
        simp [rowsLoop, hs, hr, Bind.bind, Except.bind] at h
        subst h
        obtain ⟨hlen, hidx⟩ := ih rs hr
        refine ⟨by simp [hlen], ?_⟩
        intro i h1 h2
        cases i with
        | zero => exact hs
        | succ n => exact hidx n (Nat.lt_of_succ_lt_succ h1) (Nat.lt_of_succ_lt_succ h2)

lemma joinField_ok_of (kvs : List (String × JValue)) (k : String) (d : JValue)
    (hd : d = .list [] ∨ d = .str "")
    (h : ∀ xs, dictGet kvs k = some (.list xs) → (strList xs).isSome = true) :
    ∃ v, joinField kvs k d = .ok v := by
  cases hg : dictGet kvs k with
  | none => exact ⟨.str "", joinField_absent kvs k d hd hg⟩
  | some v =>
    cases v with
    | list xs =>
      have hx := h xs hg
      cases hsl : strList xs with
      | none => rw [hsl] at hx; simp at hx
      | some ss =>
        refine ⟨.str (String.intercalate ", " ss), ?_⟩
        unfold joinField
        rw [hg]
        show pyJoin xs = _
        unfold pyJoin
        rw [hsl]
    | null => exact ⟨.null, by unfold joinField; rw [hg]; rfl⟩
    | bool b => exact ⟨.bool b, by unfold joinField; rw [hg]; rfl⟩
    | int n => exact ⟨.int n, by unfold joinField; rw [hg]; rfl⟩
    | str s => exact ⟨.str s, by unfold joinField; rw [hg]; rfl⟩
    | dict kvs2 => exact ⟨.dict kvs2, by unfold joinField; rw [hg]; rfl⟩

/-- C1: for every raw study dictionary the normalizer accepts, the output
record has exactly the thirteen declared keys (each present exactly once),
and every targeted field absent from the raw study comes out as the empty
string. -/
theorem C1_thirteen_keys_absent_empty (kvs : List (String × JValue)) (r : PyRow)
    (h : normalizeStudy (.dict kvs) = .ok r) :
    r.map Prod.fst = outputKeys ∧ outputKeys.Nodup ∧
      ∀ p ∈ fieldPairs, dictGet kvs p.1 = none → dictGet r p.2 = some (.str "") := by
  obtain ⟨c, i, ph, hc, hi, hp, hr⟩ := normalizeStudy_ok_elim kvs r h
  subst hr
  refine ⟨rfl, by decide, ?_⟩
  intro p hmem habs
  unfold fieldPairs at hmem
  fin_cases hmem <;>
    simp_all [mkRow, dictGet, plainField, joinField, sponsorField, pyJoin, strList,
      show String.intercalate ", " [] = "" from rfl]

theorem C1_witness :
    normalizeStudy (.dict []) = .ok blankRow ∧
      (blankRow.map Prod.fst = outputKeys ∧ outputKeys.Nodup ∧
        ∀ p ∈ fieldPairs, dictGet [] p.1 = none → dictGet blankRow p.2 = some (.str "")) :=
  ⟨rfl, C1_thirteen_keys_absent_empty [] blankRow rfl⟩

/-- C2 counterexample: a dict whose `data` entry is present but not a dict
makes `parse_studies_to_table` raise `AttributeError` instead of returning
an empty table, so the claim as stated is false. -/
theorem C2_counterexample :
    parse_studies_to_table (.dict [("data", .int 0)]) = .error .attributeError := rfl

/-- C2 amended: the no-raise, empty-table guarantee holds for any input that
is not a dict, or a dict without `data`, or a dict whose `data` is itself a
dict with no list at `studies` — but not when `data` is present and not a
dict. -/
theorem C2_empty_table_amended :
    (∀ j : JValue, j.isDict = false → parse_studies_to_table j = .ok []) ∧
    (∀ kvs, dictGet kvs "data" = none → parse_studies_to_table (.dict kvs) = .ok []) ∧
    (∀ kvs dkvs, dictGet kvs "data" = some (.dict dkvs) →
        (∀ xs, dictGet dkvs "studies" ≠ some (.list xs)) →
        parse_studies_to_table (.dict kvs) = .ok []) := by
  refine ⟨?_, ?_, ?_⟩
  · intro j hj
    cases j <;> first | rfl | (simp [JValue.isDict] at hj)
  · intro kvs h
    simp only [parse_studies_to_table]
    rw [h]
  · intro kvs dkvs h hns
    simp only [parse_studies_to_table]
    rw [h]
    show studiesFrom (.dict dkvs) = .ok []
    simp only [studiesFrom]
    cases hs : dictGet dkvs "studies" with
    | none => rfl
    | some v => cases v <;> first | rfl | exact absurd hs (hns _)

theorem C2_witness :
    parse_studies_to_table (.int 3) = .ok [] ∧
      parse_studies_to_table (.dict [("other", .null)]) = .ok [] ∧
      parse_studies_to_table (.dict [("data", .dict [("studies", .str "x")])]) = .ok [] :=
  ⟨C2_empty_table_amended.1 (.int 3) rfl,
   C2_empty_table_amended.2.1 [("other", .null)] rfl,
   C2_empty_table_amended.2.2 [("data", .dict [("studies", .str "x")])]
     [("studies", .str "x")] rfl (fun xs hx => by simp [dictGet] at hx)⟩

/-- C3 counterexample: a studies list containing a non-dict element makes
the normalizer raise `AttributeError`, so the per-study no-raise claim is
false. -/
theorem C3_counterexample :
    parse_studies_to_table (.dict [("data", .dict [("studies", .list [.int 5])])]) =
      .error .attributeError := rfl

/-- C3 amended: a non-dict study element raises `AttributeError`; a
`conditions` list containing a non-string raises `TypeError` (the same holds
for `interventions` and `phase`); the normalizer succeeds exactly on dict
studies whose `conditions`, `interventions` and `phase`, when lists, contain
only strings. -/
theorem C3_per_study_amended :
    (∀ s : JValue, s.isDict = false → normalizeStudy s = .error .attributeError) ∧
    (∀ (kvs : List (String × JValue)) (xs : List JValue),
        dictGet kvs "conditions" = some (.list xs) → strList xs = none →
        normalizeStudy (.dict kvs) = .error .typeError) ∧
    (∀ kvs : List (String × JValue),
        (∀ k ∈ (["conditions", "interventions", "phase"] : List String),
          ∀ xs, dictGet kvs k = some (.list xs) → (strList xs).isSome = true) →
        ∃ r, normalizeStudy (.dict kvs) = .ok r) := by
  refine ⟨?_, ?_, ?_⟩
  · intro s hs
    cases s <;> first | rfl | (simp [JValue.isDict] at hs)
  · intro kvs xs hg hsl
    have hjf : joinField kvs "conditions" (.list []) = .error .typeError := by
      unfold joinField
      rw [hg]
      show pyJoin xs = _
      unfold pyJoin
      rw [hsl]
    simp [normalizeStudy, hjf, Bind.bind, Except.bind]
  · intro kvs h
    obtain ⟨c, hc⟩ := joinField_ok_of kvs "conditions" (.list []) (Or.inl rfl)
      (h "conditions" (by decide))
    obtain ⟨i, hi⟩ := joinField_ok_of kvs "interventions" (.list []) (Or.inl rfl)
      (h "interventions" (by decide))
    obtain ⟨p, hp⟩ := joinField_ok_of kvs "phase" (.str "") (Or.inr rfl)
      (h "phase" (by decide))
    exact ⟨mkRow kvs c i p, by simp [normalizeStudy, hc, hi, hp, Bind.bind, Except.bind]⟩

theorem C3_witness :
    normalizeStudy (.int 5) = .error .attributeError ∧
      normalizeStudy (.dict [("conditions", .list [.int 1])]) = .error .typeError ∧
      ∃ r, normalizeStudy (.dict [("conditions", .list [.str "a"])]) = .ok r :=
  ⟨C3_per_study_amended.1 (.int 5) rfl,
   C3_per_study_amended.2.1 [("conditions", .list [.int 1])] [.int 1] rfl rfl,
   C3_per_study_amended.2.2 [("conditions", .list [.str "a"])] (by
     intro k hk
     fin_cases hk
     · intro xs hx
       simp [dictGet] at hx
       subst hx
       rfl
     · intro xs hx
       simp [dictGet] at hx
     · intro xs hx
       simp [dictGet] at hx)⟩

/-- C4 counterexample: a `title` given as a list of strings is passed
through as a list, not joined into the single string `"a, b"`, so the
all-thirteen-fields claim is false. -/
theorem C4_counterexample :
    (normalizeStudy (.dict [("title", .list [.str "a", .str "b"])])).map
        (fun r => dictGet r "Study Title") = .ok (some (.list [.str "a", .str "b"])) ∧
      JValue.list [.str "a", .str "b"] ≠ .str "a, b" :=
  ⟨rfl, fun h => JValue.noConfusion h⟩

/-- C4 amended: only `conditions`, `interventions` and `phase` are joined
with the delimiter `", "` in their existing order; any other targeted field,
for example `title`, passes a list value through unchanged. -/
theorem C4_join_fields (kvs : List (String × JValue)) (r : PyRow)
    (xs : List JValue) (ss : List String)
    (h : normalizeStudy (.dict kvs) = .ok r) (hss : strList xs = some ss) :
    (dictGet kvs "conditions" = some (.list xs) →
        dictGet r "Conditions" = some (.str (String.intercalate ", " ss))) ∧
    (dictGet kvs "interventions" = some (.list xs) →
        dictGet r "Interventions" = some (.str (String.intercalate ", " ss))) ∧
    (dictGet kvs "phase" = some (.list xs) →
        dictGet r "Phases" = some (.str (String.intercalate ", " ss))) ∧
    (dictGet kvs "title" = some (.list xs) →
        dictGet r "Study Title" = some (.list xs)) := by
  obtain ⟨c, i, p, hc, hi, hp, hr⟩ := normalizeStudy_ok_elim kvs r h
  subst hr
  refine ⟨?_, ?_, ?_, ?_⟩
  · intro hg
    have hj : joinField kvs "conditions" (.list []) =
        .ok (.str (String.intercalate ", " ss)) := by
      unfold joinField
      rw [hg]
      show pyJoin xs = _
      unfold pyJoin
      rw [hss]
    have h2 := hj.symm.trans hc
    injection h2 with h3
    rw [h3]; rfl
  · intro hg
    have hj : joinField kvs "interventions" (.list []) =
        .ok (.str (String.intercalate ", " ss)) := by
      unfold joinField
      rw [hg]
      show pyJoin xs = _
      unfold pyJoin
      rw [hss]
    have h2 := hj.symm.trans hi
    injection h2 with h3
    rw [h3]; rfl
  · intro hg
    have hj : joinField kvs "phase" (.str "") =
        .ok (.str (String.intercalate ", " ss)) := by
      unfold joinField
      rw [hg]
      show pyJoin xs = _
      unfold pyJoin
      rw [hss]
    have h2 := hj.symm.trans hp
    injection h2 with h3
    rw [h3]; rfl
  · intro hg
    show some (plainField kvs "title") = some (.list xs)
    unfold plainField
    rw [hg]
    rfl

theorem C4_witness :
    dictGet rowW4 "Conditions" = some (.str "a, b") ∧
      dictGet rowW4 "Study Title" = some (.list [.str "a", .str "b"]) :=
  ⟨(C4_join_fields [("title", .list [.str "a", .str "b"]),
      ("conditions", .list [.str "a", .str "b"])] rowW4
      [.str "a", .str "b"] ["a", "b"] rfl rfl).1 rfl,
   (C4_join_fields [("title", .list [.str "a", .str "b"]),
      ("conditions", .list [.str "a", .str "b"])] rowW4
      [.str "a", .str "b"] ["a", "b"] rfl rfl).2.2.2 rfl⟩

/-- C5 counterexample: a sponsor dict whose `name` key is present with the
falsy value `""` yields the `agency` value `"NIH"`, not the `name` value, so
the present-whatever-its-value claim is false. -/
theorem C5_counterexample :
    (normalizeStudy (.dict [("sponsor", .dict [("name", .str ""), ("agency", .str "NIH")])])).map
        (fun r => dictGet r "Sponsor") = .ok (some (.str "NIH")) ∧
      JValue.str "NIH" ≠ .str "" :=
  ⟨rfl, fun h => by injection h with h2; exact absurd h2 (by decide)⟩

/-- C5 amended: the sponsor value is the `name` sub-field when present with
a truthy value, otherwise the `agency` sub-field when present, otherwise the
empty string (no recursion); the three concrete examples of the claim still
hold. -/
theorem C5_sponsor_truthy (kvs skvs : List (String × JValue)) (r : PyRow)
    (h : normalizeStudy (.dict kvs) = .ok r)
    (hs : dictGet kvs "sponsor" = some (.dict skvs)) :
    (∀ v, dictGet skvs "name" = some v → v.truthy = true →
        dictGet r "Sponsor" = some v) ∧
    ((∀ v, dictGet skvs "name" = some v → v.truthy = false) →
        dictGet r "Sponsor" = some ((dictGet skvs "agency").getD (.str ""))) := by
  obtain ⟨c, i, p, hc, hi, hp, hr⟩ := normalizeStudy_ok_elim kvs r h
  subst hr
  constructor
  · intro v hv htr
    show some (sponsorField kvs) = some v
    simp [sponsorField, hs, hv, htr]
  · intro hfal
    show some (sponsorField kvs) = some ((dictGet skvs "agency").getD (.str ""))
    cases hn : dictGet skvs "name" with
    | none => simp [sponsorField, hs, hn, JValue.truthy]
    | some v =>
      have htr := hfal v hn
      simp [sponsorField, hs, hn, htr]

theorem C5_witness :
    dictGet (sponsorRow (.str "Acme")) "Sponsor" = some (.str "Acme") ∧
      dictGet (sponsorRow (.str "NIH")) "Sponsor" = some (.str "NIH") ∧
      dictGet (sponsorRow (.str "")) "Sponsor" = some (.str "") :=
  ⟨(C5_sponsor_truthy [("sponsor", .dict [("name", .str "Acme")])]
      [("name", .str "Acme")] (sponsorRow (.str "Acme")) rfl rfl).1
      (.str "Acme") rfl rfl,
   (C5_sponsor_truthy [("sponsor", .dict [("agency", .str "NIH")])]
      [("agency", .str "NIH")] (sponsorRow (.str "NIH")) rfl rfl).2
      (fun _ hv => Option.noConfusion hv),
   (C5_sponsor_truthy [("sponsor", .dict [])] [] (sponsorRow (.str "")) rfl rfl).2
      (fun _ hv => Option.noConfusion hv)⟩

/-- C6: for a response of shape `data.studies` with list `l`, a successful
run returns one row per study, the i-th row being the normalization of the
i-th study, in order. -/
theorem C6_order_preserving (l : List JValue) (rows : List PyRow)
    (h : parse_studies_to_table (.dict [("data", .dict [("studies", .list l)])]) = .ok rows) :
    rows.length = l.length ∧
      ∀ i (h1 : i < l.length) (h2 : i < rows.length),
        normalizeStudy (l.get ⟨i, h1⟩) = .ok (rows.get ⟨i, h2⟩) := by
  have h2 : rowsLoop l = .ok rows := h
  exact rowsLoop_ok l rows h2

theorem C6_witness :
    ([blankRow] : List PyRow).length = [(JValue.dict [] : JValue)].length ∧
      normalizeStudy (.dict []) = .ok blankRow :=
  ⟨(C6_order_preserving [.dict []] [blankRow] rfl).1,
   (C6_order_preserving [.dict []] [blankRow] rfl).2 0 (by decide) (by decide)⟩

/-- C7 counterexample: a document with a top-level `studies` list holding
one study yields the empty table, not one record per study, so the
two-shapes claim is false. -/
theorem C7_counterexample :
    parse_studies_to_table (.dict [("studies", .list [.dict []])]) = .ok [] ∧
      ([] : List PyRow).length ≠ 1 :=
  ⟨rfl, by decide⟩

/-- C7 amended: only the `data.studies` shape is tolerated — a document with
a top-level `studies` list and no `data` key yields the empty table, while
the `data.studies` shape yields one record per study. -/
theorem C7_only_data_studies :
    (∀ l : List JValue, parse_studies_to_table (.dict [("studies", .list l)]) = .ok []) ∧
    (∀ (l : List JValue) (rows : List PyRow),
        parse_studies_to_table (.dict [("data", .dict [("studies", .list l)])]) = .ok rows →
        rows.length = l.length) := by
  refine ⟨fun l => rfl, fun l rows h => ?_⟩
  exact (rowsLoop_ok l rows h).1

theorem C7_witness :
    parse_studies_to_table (.dict [("studies", .list [.dict [], .dict []])]) = .ok [] ∧
      ([blankRow] : List PyRow).length = [(JValue.dict [] : JValue)].length :=
  ⟨C7_only_data_studies.1 [.dict [], .dict []],
   C7_only_data_studies.2 [.dict []] [blankRow] rfl⟩

/-- C8: the worked example of the specification — nctId, conditions and
phase are carried over (lists joined), every other field is the empty
string. -/
theorem C8_worked_example :
    normalizeStudy (.dict [("nctId", .str "NCT001"),
        ("conditions", .list [.str "Lung Cancer", .str "EGFR+"]),
        ("phase", .list [.str "Phase 2"])]) =
      .ok [("nctId", .str "NCT001"), ("Study Title", .str ""), ("Study URL", .str ""),
        ("Study Status", .str ""), ("Brief Summary", .str ""),
        ("Conditions", .str "Lung Cancer, EGFR+"), ("Interventions", .str ""),
        ("Sponsor", .str ""), ("Phases", .str "Phase 2"), ("Start Date", .str ""),
        ("Primary Completion Date", .str ""), ("Completion Date", .str ""),
        ("Last Update Posted", .str "")] := rfl

/-- C9: normalization is a pure, deterministic function of its input — two
runs on the same value agree — and the study loop carries no state across
studies: running it on a concatenation is running it on the pieces
independently and appending. -/
theorem C9_pure_no_shared_state :
    (∀ j : JValue, parse_studies_to_table j = parse_studies_to_table j) ∧
    (∀ l1 l2 : List JValue,
        rowsLoop (l1 ++ l2) =
          Except.bind (rowsLoop l1) (fun r1 =>
            Except.bind (rowsLoop l2) (fun r2 => .ok (r1 ++ r2)))) := by
  refine ⟨fun j => rfl, fun l1 l2 => ?_⟩
  induction l1 with
  | nil => cases h : rowsLoop l2 <;> simp [rowsLoop, h, Except.bind]
  | cons s rest ih =>
    cases hs : normalizeStudy s with
    | error e => simp [rowsLoop, hs, Bind.bind, Except.bind]
    | ok row =>
      cases hr : rowsLoop rest with
      | error e => simp [rowsLoop, hs, hr, ih, Bind.bind, Except.bind]
      | ok rs => cases hl : rowsLoop l2 <;>
          simp [rowsLoop, hs, hr, hl, ih, Bind.bind, Except.bind]

/-- C10: the output record depends only on the thirteen recognized source
keys — two studies agreeing on them normalize identically, whatever other
keys they carry. -/
theorem C10_only_recognized_keys (kvs1 kvs2 : List (String × JValue))
    (h : ∀ k ∈ sourceKeys, dictGet kvs1 k = dictGet kvs2 k) :
    normalizeStudy (.dict kvs1) = normalizeStudy (.dict kvs2) := by
  have e1 := h "nctId" (by decide)
  have e2 := h "title" (by decide)
  have e3 := h "studyPageUrl" (by decide)
  have e4 := h "status" (by decide)
  have e5 := h "briefSummary" (by decide)
  have e6 := h "conditions" (by decide)
  have e7 := h "interventions" (by decide)
  have e8 := h "sponsor" (by decide)
  have e9 := h "phase" (by decide)
  have e10 := h "startDate" (by decide)
  have e11 := h "primaryCompletionDate" (by decide)
  have e12 := h "completionDate" (by decide)
  have e13 := h "lastUpdatePostDate" (by decide)
  simp only [normalizeStudy, mkRow, plainField, joinField, sponsorField]
  rw [e1, e2, e3, e4, e5, e6, e7, e8, e9, e10, e11, e12, e13]

theorem C10_witness :
    normalizeStudy (.dict [("unrelatedKey", .int 1)]) = normalizeStudy (.dict []) :=
  C10_only_recognized_keys [("unrelatedKey", .int 1)] []
    (by intro k hk; unfold sourceKeys fieldPairs at hk; fin_cases hk <;> rfl)
